import Mathlib

set_option autoImplicit false
set_option maxRecDepth 8000

/-!
Shallow embedding of `src/server/db/db_handler.py` (annotate-lab persistence
and reconciliation layer).  DataFrames are modelled as lists of rows, a row
being an association list from column name to a dynamic `Val`; Python
exceptions are modelled by `Option`/explicit `ok` flags; the in-place versus
reassignment distinction of pandas mutation is reflected in which table a
failing call leaves behind.  Side effects on the category handler
(`add_image_folder` / `remove_image_folder`) are logged as `Call`s.
-/

namespace AnnotateLab

/-- Dynamic Python-style values held in DataFrame cells and payload dicts.
Python lists are cons-encoded (`nilV`/`consV`) and dicts are encoded as
`dnil`/`dcons` chains so that equality stays structurally decidable. -/
inductive Val where
  | str (s : String)
  | int (n : Int)
  | nilV
  | consV (hd tl : Val)
  | dnil
  | dcons (key : String) (val tl : Val)
  deriving DecidableEq, Repr

/-- Smart constructor: a Python list value. -/
def Val.list : List Val → Val
  | [] => .nilV
  | v :: vs => .consV v (Val.list vs)

/-- Smart constructor: a Python dict value. -/
def Val.dict : List (String × Val) → Val
  | [] => .dnil
  | (k, v) :: fs => .dcons k v (Val.dict fs)

/-- The elements of a list value. -/
def Val.asList? : Val → Option (List Val)
  | .nilV => some []
  | .consV h t => (Val.asList? t).map (h :: ·)
  | _ => none

/-- The fields of a dict value. -/
def Val.dictFields? : Val → Option (List (String × Val))
  | .dnil => some []
  | .dcons k v t => (Val.dictFields? t).map ((k, v) :: ·)
  | _ => none

/-- A Python dict / a DataFrame row: ordered association list. -/
abbrev Record := List (String × Val)

/-- A DataFrame: ordered list of rows. -/
abbrev Table := List Record

/-- Side-effecting calls made to the category handler collaborator. -/
inductive Call where
  | register (cls imageName imageSrc : Val)
  | unregister (cls imageName : Val)
  deriving DecidableEq, Repr

/-- Python dict lookup `d[k]` / `d.get(k)`: first binding wins. -/
def lookupF : Record → String → Option Val
  | [], _ => none
  | (k, v) :: rest, key => if k = key then some v else lookupF rest key

/-- Python dict assignment `d[k] = v` (also `df.at[i, k] = v` restricted to
row `i`): overwrite the first binding of `k`, or append a new binding. -/
def rowSet : Record → String → Val → Record
  | [], k, v => [(k, v)]
  | (k', v') :: rest, k, v =>
      if k' = k then (k, v) :: rest else (k', v') :: rowSet rest k v

/-- Python `x[0]`: head of a list, first character of a string; `none`
models `IndexError`/`TypeError`/`KeyError`. -/
def pyIndex0 (v : Val) : Option Val :=
  match v with
  | .consV x _ => some x
  | .str s =>
      match s.toList with
      | [] => none
      | c :: _ => some (.str (Char.toString c))
  | _ => none

/-- Whether a `Val` can be a Python set element (hashable). -/
def isHashable (v : Val) : Bool :=
  match v with
  | .str _ => true
  | .int _ => true
  | _ => false

/-- Canonical list representation of a Python set built from a list:
keep the first occurrence of each element. -/
def dedupVGo : List Val → List Val → List Val
  | [], _ => []
  | x :: xs, seen =>
      if seen.contains x then dedupVGo xs seen else x :: dedupVGo xs (x :: seen)

def dedupV (l : List Val) : List Val := dedupVGo l []

/-- The characters of a string as one-character string values. -/
def charVals (s : String) : List Val :=
  s.toList.map (fun c => Val.str (Char.toString c))

/-- Python `set(x)`: characters of a string, elements of a list (failing on
unhashable elements), keys of a dict; `none` models `TypeError`. -/
def pySetElems (v : Val) : Option (List Val) :=
  match v with
  | .str s => some (dedupV (charVals s))
  | .int _ => none
  | other =>
      match other.asList? with
      | some vs => if vs.all isHashable then some (dedupV vs) else none
      | none =>
          match other.dictFields? with
          | some fs => some (dedupV (fs.map (fun kv => Val.str kv.1)))
          | none => none

/-- Characters of a string split on `';'` (Python `s.split(';')`). -/
def splitSemiChars : List Char → List String
  | [] => [""]
  | c :: cs =>
      let rest := splitSemiChars cs
      if c = ';' then "" :: rest
      else
        match rest with
        | [] => [Char.toString c]
        | r :: rs => (Char.toString c ++ r) :: rs

def pySplitSemiStr (s : String) : List String := splitSemiChars s.toList

/-- Python `sep.join(strs)`. -/
def joinWith (sep : String) : List String → String
  | [] => ""
  | [s] => s
  | s :: rest => s ++ sep ++ joinWith sep rest

/-- Python `';' in x`: substring test on a string, membership on a list,
key membership on a dict; `none` models `TypeError` on an int. -/
def semicolonIn (v : Val) : Option Bool :=
  match v with
  | .str s => some (s.toList.contains ';')
  | .int _ => none
  | other =>
      match other.asList? with
      | some vs => some (vs.contains (Val.str ";"))
      | none =>
          match other.dictFields? with
          | some fs => some (fs.any (fun kv => kv.1 = ";"))
          | none => none

/-- Python `x.split(';')` (strings only; `none` models `AttributeError`). -/
def pySplitSemi (v : Val) : Option (List Val) :=
  match v with
  | .str s => some ((pySplitSemiStr s).map Val.str)
  | _ => none

/-- Lines 84-85: unwrap a one-element list holding a single string to that
string, leave anything else unchanged. -/
def unwrapSingleStr (v : Val) : Val :=
  match v with
  | .consV (.str s) .nilV => Val.str s
  | _ => v

/-- Python set difference `a - b` on the canonical list representation. -/
def listDiff (a b : List Val) : List Val :=
  a.filter (fun x => !(b.contains x))

/-- `get_lists_absolute(new_set, old_set)` (lines 292-293):
`(list(new_set - old_set), list(old_set - new_set))`. -/
def get_lists_absolute (newSet oldSet : List Val) : List Val × List Val :=
  (listDiff newSet oldSet, listDiff oldSet newSet)

/-- Lines 87-99 of `saveRegionInDB`: compute the old and new class
membership sets for the matched row.  `none` models an exception
(missing column, `split` on a non-string, `set()` of an int, ...). -/
def computeCatSets (row : Record) (data : Record) (selStr : Val) :
    Option (List Val × List Val) :=
  if (lookupF data "selected-classes").isSome then
    match semicolonIn selStr with
    | none => none
    | some true =>
        match lookupF row "selected-classes" with
        | none => none
        | some stored =>
            match pySplitSemi stored, pySplitSemi selStr with
            | some olds, some news => some (dedupV olds, dedupV news)
            | _, _ => none
    | some false =>
        match lookupF row "selected-classes" with
        | none => none
        | some stored =>
            match pySetElems stored, pySetElems selStr with
            | some o, some n => some (o, n)
            | _, _ => none
  else
    match lookupF row "class" with
    | none => none
    | some stored =>
        match pySetElems stored, pySetElems selStr with
        | some o, some n => some (o, n)
        | _, _ => none

/-- Lines 101-103: write every field of the incoming record into the row,
taking `value[0]` when `status == 0`.  The boolean is false when an
exception interrupts the loop, leaving the partially written row. -/
def applyFields (row : Record) (data : Record) (status : Nat) : Record × Bool :=
  match data with
  | [] => (row, true)
  | (k, v) :: rest =>
      match (if status = 0 then pyIndex0 v else some v) with
      | none => (row, false)
      | some w => applyFields (rowSet row k w) rest status

/-- Lines 107-108: one `add_image_folder` call per added class, evaluating
`data['image-name'][0]` and `data['image-src'][0]` at each iteration. -/
def addCallsLoop (adds : List Val) (data : Record) : List Call × Bool :=
  match adds with
  | [] => ([], true)
  | c :: rest =>
      match lookupF data "image-name" with
      | none => ([], false)
      | some nv =>
          match pyIndex0 nv with
          | none => ([], false)
          | some n0 =>
              match lookupF data "image-src" with
              | none => ([], false)
              | some sv =>
                  match pyIndex0 sv with
                  | none => ([], false)
                  | some s0 =>
                      let r := addCallsLoop rest data
                      (Call.register c n0 s0 :: r.1, r.2)

/-- Lines 110-111: one `remove_image_folder` call per removed class. -/
def removeCallsLoop (removes : List Val) (data : Record) : List Call × Bool :=
  match removes with
  | [] => ([], true)
  | c :: rest =>
      match lookupF data "image-name" with
      | none => ([], false)
      | some nv =>
          match pyIndex0 nv with
          | none => ([], false)
          | some n0 =>
              let r := removeCallsLoop rest data
              (Call.unregister c n0 :: r.1, r.2)

/-- Lines 128-131: registration loop on the insert path, skipping empty
class names. -/
def insertCallsLoop (classes : List Val) (data : Record) : List Call × Bool :=
  match classes with
  | [] => ([], true)
  | c :: rest =>
      if c = Val.str "" then insertCallsLoop rest data
      else
        match lookupF data "image-name" with
        | none => ([], false)
        | some nv =>
            match pyIndex0 nv with
            | none => ([], false)
            | some n0 =>
                match lookupF data "image-src" with
                | none => ([], false)
                | some sv =>
                    match pyIndex0 sv with
                    | none => ([], false)
                    | some s0 =>
                        let r := insertCallsLoop rest data
                        (Call.register c n0 s0 :: r.1, r.2)

/-- `findInfoInDb` (lines 182-187): position of the first row whose
`uid_columns` cell equals `uid`. -/
def findIdx : Table → String → Val → Nat → Option Nat
  | [], _, _, _ => none
  | row :: rest, col, uid, i =>
      if lookupF row col = some uid then some i else findIdx rest col uid (i + 1)

def findInfoInDb (database : Table) (col : String) (uid : Val) : Option Nat :=
  findIdx database col uid 0

/-- Result of `saveRegionInDB` as seen by the caller: `table` is the table
the caller's attribute ends up holding (in-place mutations survive an
exception on the update path; the reassigned concat result is lost on an
insert-path exception), `calls` the category-handler calls actually made,
`ok` false when the call raised. -/
structure UpsertResult where
  table : Table
  calls : List Call
  ok : Bool
  deriving DecidableEq, Repr

/-- Python iteration over a value: list elements, string characters, dict
keys; `none` models `TypeError` on an int. -/
def pyIter (v : Val) : Option (List Val) :=
  match v with
  | .str s => some (charVals s)
  | .int _ => none
  | other =>
      match other.asList? with
      | some vs => some vs
      | none =>
          match other.dictFields? with
          | some fs => some (fs.map (fun kv => Val.str kv.1))
          | none => none

/-- Lines 101-111 of `saveRegionInDB`: the tail of the update path after
the class sets have been computed: write all fields in place, then emit
the add/remove calls when the record carries `image-name`. -/
def updateRow (database : Table) (index : Nat) (data : Record) (status : Nat)
    (sets : List Val × List Val) (row : Record) : UpsertResult :=
  let wr := applyFields row data status
  let database' := database.set index wr.1
  if wr.2 = false then ⟨database', [], false⟩
  else
    let ar := get_lists_absolute sets.2 sets.1
    match lookupF data "image-name" with
    | none => ⟨database', [], true⟩
    | some _ =>
        let ac := addCallsLoop ar.1 data
        if ac.2 = false then ⟨database', ac.1, false⟩
        else
          let rc := removeCallsLoop ar.2 data
          ⟨database', ac.1 ++ rc.1, rc.2⟩

/-- Lines 124-126: unwrap a one-element list holding a single string into
the list obtained by splitting that string on `';'`. -/
def selSplit (selV : Val) : Val :=
  match selV with
  | .consV (.str s) .nilV => Val.list ((pySplitSemiStr s).map Val.str)
  | _ => selV

/-- `saveRegionInDB` (lines 74-140). -/
def saveRegionInDB (database : Table) (idColumn : String) (uid : Val)
    (data : Record) (status : Nat) : UpsertResult :=
  match findInfoInDb database idColumn uid with
  | some index =>
      -- line 81: data.get('selected-classes', data['class']) evaluates the
      -- default argument data['class'] eagerly, so a record without a
      -- 'class' key raises KeyError here even when 'selected-classes' is
      -- present.
      match lookupF data "class" with
      | none => ⟨database, [], false⟩
      | some clsV =>
          match database[index]? with
          | none => ⟨database, [], false⟩
          | some row =>
              match computeCatSets row data
                  (unwrapSingleStr ((lookupF data "selected-classes").getD clsV)) with
              | none => ⟨database, [], false⟩
              | some sets => updateRow database index data status sets row
  | none =>
      match lookupF data "selected-classes" with
      | none => ⟨database ++ [data], [], true⟩
      | some selV =>
          match pyIter (selSplit selV) with
          | none => ⟨database, [], false⟩
          | some classes =>
              if (insertCallsLoop classes data).2 then
                ⟨database ++ [data], (insertCallsLoop classes data).1, true⟩
              else ⟨database, (insertCallsLoop classes data).1, false⟩

/-- The module's state: the four in-memory tables, the four persisted CSV
files, and the log of category-handler calls. -/
structure DBState where
  imagesInfo : Table
  circle : Table
  box : Table
  polygon : Table
  fImages : Table
  fCircle : Table
  fBox : Table
  fPolygon : Table
  calls : List Call
  deriving DecidableEq, Repr

def emptyDB : DBState := ⟨[], [], [], [], [], [], [], [], []⟩

mutual

/-- Python `repr` of a value (string escaping approximated). -/
def pyRepr : Val → String
  | .str s => "'" ++ s ++ "'"
  | .int n => toString n
  | .nilV => "[]"
  | .consV h t => "[" ++ pyRepr h ++ pyReprRest t ++ "]"
  | .dnil => "\x7b\x7d"
  | .dcons k v t => "\x7b" ++ "'" ++ k ++ "': " ++ pyRepr v ++ pyReprDRest t ++ "\x7d"

/-- Rendering of the remaining elements of a list value. -/
def pyReprRest : Val → String
  | .consV h t => ", " ++ pyRepr h ++ pyReprRest t
  | _ => ""

/-- Rendering of the remaining fields of a dict value. -/
def pyReprDRest : Val → String
  | .dcons k v t => ", '" ++ k ++ "': " ++ pyRepr v ++ pyReprDRest t
  | _ => ""

end

/-- Python `str` of a value. -/
def pyStr (v : Val) : String :=
  match v with
  | .str s => s
  | other => pyRepr other

/-- `';'.join(x)`: joins list elements, all of which must be strings; a
string argument joins its characters; `none` models `TypeError`. -/
def pyJoinSemi (v : Val) : Option String :=
  match v with
  | .str s => some (joinWith ";" (s.toList.map Char.toString))
  | .int _ => none
  | other =>
      match other.asList? with
      | some vs =>
          if vs.all (fun x => match x with | .str _ => true | _ => false) then
            some (joinWith ";"
              (vs.map (fun x => match x with | .str s => s | _ => "")))
          else none
      | none => none

/-- Lines 59-67 of `saveRegionInfo`: the flat record shared by all region
kinds.  `none` models a raised `KeyError`/`TypeError`. -/
def buildRegionData (imageSrc : String) (data : Record) : Option Record :=
  match lookupF data "id" with
  | none => none
  | some idV =>
      match lookupF data "cls" with
      | none => none
      | some clsV =>
          let comment := (lookupF data "comment").getD (Val.str "")
          let tags := (lookupF data "tags").getD (Val.list [])
          match pyJoinSemi tags with
          | none => none
          | some tagStr =>
              some [("region-id", idV), ("image-src", Val.str imageSrc),
                    ("class", clsV), ("comment", comment),
                    ("tags", Val.str tagStr)]

/-- The generator `'-'.join(str(coord) for coord in point) for point in
points` of line 163; `none` models `TypeError` on a non-iterable point. -/
def renderPoints : List Val → Option (List String)
  | [] => some []
  | pt :: rest =>
      match pyIter pt with
      | none => none
      | some cs => (renderPoints rest).map (joinWith "-" (cs.map pyStr) :: ·)

/-- Python dict subscript on a general value (`coords['rx']`). -/
def dictGet (v : Val) (k : String) : Option Val :=
  match v with
  | .dcons k' v' t => if k' = k then some v' else dictGet t k
  | _ => none

/-- Line 149: the upsert call of `circleRegion`. -/
def circleUpsert (st : DBState) (rd : Record) : DBState × Bool :=
  match lookupF rd "region-id" with
  | none => (st, false)
  | some uid =>
      let r := saveRegionInDB st.circle "region-id" uid rd 1
      ({ st with
          circle := r.table
          calls := st.calls ++ r.calls }, r.ok)

/-- `circleRegion` (lines 142-149). -/
def circleRegion (st : DBState) (regionData : Record) (data : Record) :
    DBState × Bool :=
  match lookupF data "coords" with
  | none => (st, false)
  | some coords =>
      match dictGet coords "rx" with
      | none => (st, false)
      | some rx =>
          match dictGet coords "ry" with
          | none => (st, false)
          | some ry =>
              match dictGet coords "rw" with
              | none => (st, false)
              | some rw =>
                  match dictGet coords "rh" with
                  | none => (st, false)
                  | some rh =>
                      circleUpsert st (regionData ++
                        [("rx", Val.list [rx]), ("ry", Val.list [ry]),
                         ("rw", Val.list [rw]), ("rh", Val.list [rh])])

/-- Line 159: the upsert call of `boxRegion`. -/
def boxUpsert (st : DBState) (rd : Record) : DBState × Bool :=
  match lookupF rd "region-id" with
  | none => (st, false)
  | some uid =>
      let r := saveRegionInDB st.box "region-id" uid rd 1
      ({ st with
          box := r.table
          calls := st.calls ++ r.calls }, r.ok)

/-- `boxRegion` (lines 152-159). -/
def boxRegion (st : DBState) (regionData : Record) (data : Record) :
    DBState × Bool :=
  match lookupF data "coords" with
  | none => (st, false)
  | some coords =>
      match dictGet coords "x" with
      | none => (st, false)
      | some x =>
          match dictGet coords "y" with
          | none => (st, false)
          | some y =>
              match dictGet coords "w" with
              | none => (st, false)
              | some w =>
                  match dictGet coords "h" with
                  | none => (st, false)
                  | some h =>
                      boxUpsert st (regionData ++
                        [("x", Val.list [x]), ("y", Val.list [y]),
                         ("w", Val.list [w]), ("h", Val.list [h])])

/-- Line 164: the upsert call of `polygonRegion`. -/
def polygonUpsert (st : DBState) (rd : Record) : DBState × Bool :=
  match lookupF rd "region-id" with
  | none => (st, false)
  | some uid =>
      let r := saveRegionInDB st.polygon "region-id" uid rd 1
      ({ st with
          polygon := r.table
          calls := st.calls ++ r.calls }, r.ok)

/-- `polygonRegion` (lines 162-164). -/
def polygonRegion (st : DBState) (regionData : Record) (data : Record) :
    DBState × Bool :=
  match lookupF data "points" with
  | none => (st, false)
  | some pointsV =>
      match pyIter pointsV with
      | none => (st, false)
      | some points =>
          match renderPoints points with
          | none => (st, false)
          | some strs =>
              polygonUpsert st
                (regionData ++ [("points", Val.str (joinWith ";" strs))])

/-- `otherRegion` (lines 167-168): only prints `data['type']`; raises when
that key is absent. -/
def otherRegion (st : DBState) (_regionData : Record) (data : Record) :
    DBState × Bool :=
  match lookupF data "type" with
  | none => (st, false)
  | some _ => (st, true)

/-- `saveRegionInfo` (lines 48-70): build the flat record, then dispatch on
the region type. -/
def saveRegionInfo (st : DBState) (ty : Val) (imageSrc : String)
    (data : Record) : DBState × Bool :=
  match buildRegionData imageSrc data with
  | none => (st, false)
  | some regionData =>
      if ty = Val.str "circle" then circleRegion st regionData data
      else if ty = Val.str "box" then boxRegion st regionData data
      else if ty = Val.str "polygon" then polygonRegion st regionData data
      else otherRegion st regionData data

/-- A whole-payload dict as produced by the HTTP layer: the required image
fields plus the raw region dicts. -/
structure Payload where
  name : String
  src : String
  comment : String
  cls : List String
  pixelSize : Option (Int × Int)
  regions : List Record
  deriving DecidableEq, Repr

/-- `getImageData` (lines 170-180): every field wrapped in a one-element
list; height and width become empty lists when `pixelSize` is absent. -/
def getImageData (p : Payload) : Record :=
  [("image-name", Val.list [Val.str p.name]),
   ("image-src", Val.list [Val.str p.src]),
   ("comment", Val.list [Val.str p.comment]),
   ("selected-classes", Val.list [Val.str (joinWith ";" p.cls)]),
   ("image-original-height",
     Val.list (match p.pixelSize with | some hw => [Val.int hw.1] | none => [])),
   ("image-original-width",
     Val.list (match p.pixelSize with | some hw => [Val.int hw.2] | none => [])),
   ("processed", Val.list [Val.int 1])]

/-- Rows belonging to one image: `table[table['image-src'] == src]`. -/
def rowSrcIs (src : String) (row : Record) : Bool :=
  lookupF row "image-src" == some (Val.str src)

/-- The region ids of one image's rows in one region table. -/
def regionIdsOf (t : Table) (src : String) : List Val :=
  (t.filter (rowSrcIs src)).filterMap (fun row => lookupF row "region-id")

/-- Keep predicate of lines 228-230: drop rows whose region-id is stale. -/
def keepRow (stale : List Val) (row : Record) : Bool :=
  match lookupF row "region-id" with
  | some v => !(stale.contains v)
  | none => true

/-- Line 223: `{region['id'] for region in data['regions']}` before
deduplication; `none` models `KeyError` on a region without an id. -/
def collectIds : List Record → Option (List Val)
  | [] => some []
  | r :: rest =>
      match lookupF r "id" with
      | none => none
      | some v => (collectIds rest).map (v :: ·)

/-- Lines 233-234: normalize and upsert each region, stopping at the first
exception. -/
def processRegions (st : DBState) (src : String) : List Record → DBState × Bool
  | [] => (st, true)
  | r :: rest =>
      match lookupF r "type" with
      | none => (st, false)
      | some ty =>
          let p := saveRegionInfo st ty src r
          if p.2 then processRegions p.1 src rest else (p.1, false)

/-- Lines 219-230: compute the stale id set (union over the three region
tables restricted to this image, minus the incoming ids) and drop the
stale rows from all three region tables. -/
def staleFiltered (st1 : DBState) (src : String) (newIds : List Val) : DBState :=
  let newIdSet := dedupV newIds
  let existing := dedupV (regionIdsOf st1.circle src ++
    regionIdsOf st1.box src ++ regionIdsOf st1.polygon src)
  let stale := listDiff existing newIdSet
  { st1 with
    circle := st1.circle.filter (keepRow stale),
    box := st1.box.filter (keepRow stale),
    polygon := st1.polygon.filter (keepRow stale) }

/-- `saveDataAutomatically` (lines 210-212, as called on line 236): persist
all four tables. -/
def saveDataAutomatically (st : DBState) : DBState :=
  { st with fImages := st.imagesInfo, fCircle := st.circle,
            fBox := st.box, fPolygon := st.polygon }

/-- Lines 219-237: the region-reconciliation part of `handleNewData`
(everything after the image-metadata upsert). -/
def reconcileRegions (st1 : DBState) (p : Payload) : DBState × Bool :=
  match collectIds p.regions with
  | none => (st1, false)
  | some newIds =>
      let st2 := staleFiltered st1 p.src newIds
      let pr := processRegions st2 p.src p.regions
      if pr.2 then (saveDataAutomatically pr.1, true) else (pr.1, false)

/-- `handleNewData` (lines 214-240). -/
def handleNewData (st : DBState) (p : Payload) : DBState × Bool :=
  let imageData := getImageData p
  let r1 := saveRegionInDB st.imagesInfo "image-src" (Val.str p.src) imageData 0
  let st1 := { st with imagesInfo := r1.table, calls := st.calls ++ r1.calls }
  if r1.ok = false then (st1, false)
  else reconcileRegions st1 p

/-- `handleActiveImageData` (lines 242-250): image metadata only; persists
just the images file. -/
def handleActiveImageData (st : DBState) (p : Payload) : DBState × Bool :=
  let imageData := getImageData p
  let r1 := saveRegionInDB st.imagesInfo "image-src" (Val.str p.src) imageData 0
  let st1 := { st with imagesInfo := r1.table, calls := st.calls ++ r1.calls }
  if r1.ok then ({ st1 with fImages := st1.imagesInfo }, true) else (st1, false)

/-- `generateUid` (lines 11-13): the fresh uuid is modelled as an explicit
argument; a supplied id is returned unchanged. -/
def generateUid (fresh : Val) (id : Option Val) : Val :=
  match id with
  | none => fresh
  | some i => i


/-! ### General lemmas about the embedded operations -/

theorem lookupF_rowSet_self (r : Record) (k : String) (v : Val) :
    lookupF (rowSet r k v) k = some v := by
  induction r with
  | nil => simp [rowSet, lookupF]
  | cons p rest ih =>
      obtain ⟨k', v'⟩ := p
      by_cases h : k' = k
      · subst h; simp [rowSet, lookupF]
      · simp [rowSet, lookupF, h, ih]

theorem lookupF_rowSet_ne (r : Record) (k k' : String) (v : Val) (h : k ≠ k') :
    lookupF (rowSet r k' v) k = lookupF r k := by
  have h' : ¬ (k' = k) := fun hc => h hc.symm
  induction r with
  | nil => simp [rowSet, lookupF, h']
  | cons p rest ih =>
      obtain ⟨k'', v''⟩ := p
      by_cases hk : k'' = k'
      · subst hk
        simp [rowSet, lookupF, h']
      · simp only [rowSet, if_neg hk, lookupF]
        by_cases hk2 : k'' = k
        · simp [hk2]
        · simp [hk2, ih]

theorem applyFields_cons (r : Record) (k : String) (v : Val) (rest : Record)
    (status : Nat) :
    applyFields r ((k, v) :: rest) status =
      match (if status = 0 then pyIndex0 v else some v) with
      | none => (r, false)
      | some w => applyFields (rowSet r k w) rest status := rfl

theorem applyFields_cons_none (r : Record) (k : String) (v : Val)
    (rest : Record) (status : Nat)
    (hw : (if status = 0 then pyIndex0 v else some v) = none) :
    applyFields r ((k, v) :: rest) status = (r, false) := by
  rw [applyFields_cons, hw]

theorem applyFields_cons_some (r : Record) (k : String) (v : Val)
    (rest : Record) (status : Nat) (w : Val)
    (hw : (if status = 0 then pyIndex0 v else some v) = some w) :
    applyFields r ((k, v) :: rest) status =
      applyFields (rowSet r k w) rest status := by
  rw [applyFields_cons, hw]

theorem applyFields_notin (l : Record) (status : Nat) :
    ∀ (r : Record) (k : String), ¬ k ∈ l.map Prod.fst →
    lookupF (applyFields r l status).1 k = lookupF r k := by
  induction l with
  | nil => intro r k _; simp [applyFields]
  | cons p rest ih =>
      intro r k hk
      obtain ⟨k', v'⟩ := p
      simp only [List.map_cons, List.mem_cons] at hk
      push_neg at hk
      obtain ⟨hk1, hk2⟩ := hk
      rw [applyFields_cons]
      cases hw : (if status = 0 then pyIndex0 v' else some v') with
      | none => rfl
      | some w =>
          show lookupF (applyFields (rowSet r k' w) rest status).1 k = lookupF r k
          rw [ih (rowSet r k' w) k hk2, lookupF_rowSet_ne r k k' w hk1]

theorem applyFields_lookup (l : Record) (status : Nat) :
    ∀ (r : Record), (l.map Prod.fst).Nodup → (applyFields r l status).2 = true →
    ∀ (k : String) (v : Val), lookupF l k = some v →
      ∃ w, (if status = 0 then pyIndex0 v else some v) = some w ∧
        lookupF (applyFields r l status).1 k = some w := by
  induction l with
  | nil => intro r _ _ k v hkv; simp [lookupF] at hkv
  | cons p rest ih =>
      intro r hnd hok k v hkv
      obtain ⟨k', v'⟩ := p
      simp only [List.map_cons, List.nodup_cons] at hnd
      obtain ⟨hk', hnd'⟩ := hnd
      cases hw : (if status = 0 then pyIndex0 v' else some v') with
      | none =>
          rw [applyFields_cons_none r k' v' rest status hw] at hok
          simp at hok
      | some w =>
          rw [applyFields_cons_some r k' v' rest status w hw] at hok ⊢
          simp only [lookupF] at hkv
          by_cases hkk : k' = k
          · subst hkk
            simp at hkv
            subst hkv
            refine ⟨w, hw, ?_⟩
            rw [applyFields_notin rest status (rowSet r k' w) k' hk',
                lookupF_rowSet_self]
          · rw [if_neg hkk] at hkv
            exact ih (rowSet r k' w) hnd' hok k v hkv

theorem findIdx_bound (col : String) (uid : Val) :
    ∀ (l : Table) (n i : Nat), findIdx l col uid n = some i →
      n ≤ i ∧ i - n < l.length := by
  intro l
  induction l with
  | nil => intro n i h; simp [findIdx] at h
  | cons row rest ih =>
      intro n i h
      by_cases hc : lookupF row col = some uid
      · simp only [findIdx, if_pos hc, Option.some.injEq] at h
        subst h
        simp only [List.length_cons]
        omega
      · simp only [findIdx, if_neg hc] at h
        have := ih (n + 1) i h
        simp only [List.length_cons]
        omega

theorem findInfoInDb_lt (T : Table) (col : String) (uid : Val) (i : Nat)
    (h : findInfoInDb T col uid = some i) : i < T.length := by
  have := findIdx_bound col uid T 0 i h
  omega

theorem mem_dedupVGo (x : Val) :
    ∀ (l seen : List Val), x ∈ dedupVGo l seen ↔ (x ∈ l ∧ ¬ x ∈ seen) := by
  intro l
  induction l with
  | nil => intro seen; simp [dedupVGo]
  | cons y ys ih =>
      intro seen
      simp only [dedupVGo]
      by_cases hy : y ∈ seen
      · rw [if_pos (by simpa using hy), ih]
        simp only [List.mem_cons]
        constructor
        · rintro ⟨h1, h2⟩; exact ⟨Or.inr h1, h2⟩
        · rintro ⟨rfl | h1, h2⟩
          · exact absurd hy h2
          · exact ⟨h1, h2⟩
      · rw [if_neg (by simpa using hy)]
        simp only [List.mem_cons, ih, List.mem_cons]
        constructor
        · rintro (rfl | ⟨h1, h2⟩)
          · exact ⟨Or.inl rfl, hy⟩
          · exact ⟨Or.inr h1, fun hc => h2 (Or.inr hc)⟩
        · rintro ⟨rfl | h1, h2⟩
          · exact Or.inl rfl
          · by_cases hx : x = y
            · exact Or.inl hx
            · exact Or.inr ⟨h1, fun hc => hc.elim hx h2⟩

theorem mem_dedupV (x : Val) (l : List Val) : x ∈ dedupV l ↔ x ∈ l := by
  rw [dedupV, mem_dedupVGo]; simp

/-- Key behavioral fact (line 81): `data.get('selected-classes', data['class'])`
evaluates its default argument eagerly, so any record without a `'class'`
key makes the whole update path raise before mutating anything. -/
theorem saveRegionInDB_update_noClass (db : Table) (col : String) (uid : Val)
    (data : Record) (status : Nat) (i : Nat)
    (hf : findInfoInDb db col uid = some i) (hc : lookupF data "class" = none) :
    saveRegionInDB db col uid data status = ⟨db, [], false⟩ := by
  unfold saveRegionInDB
  rw [hf, hc]

theorem getImageData_class_none (p : Payload) :
    lookupF (getImageData p) "class" = none := rfl

/-- An image whose `image-src` already matches a row makes the image-level
upsert of `handleNewData` raise immediately and the handler return `False`
with the state unchanged. -/
theorem handleNewData_existing (st : DBState) (p : Payload) (i : Nat)
    (hf : findInfoInDb st.imagesInfo "image-src" (Val.str p.src) = some i) :
    handleNewData st p = (st, false) := by
  obtain ⟨t1, t2, t3, t4, f1, f2, f3, f4, cl⟩ := st
  have h1 := saveRegionInDB_update_noClass t1 "image-src"
    (Val.str p.src) (getImageData p) 0 i hf (getImageData_class_none p)
  simp [handleNewData, h1]

theorem handleActiveImageData_existing (st : DBState) (p : Payload) (i : Nat)
    (hf : findInfoInDb st.imagesInfo "image-src" (Val.str p.src) = some i) :
    handleActiveImageData st p = (st, false) := by
  obtain ⟨t1, t2, t3, t4, f1, f2, f3, f4, cl⟩ := st
  have h1 := saveRegionInDB_update_noClass t1 "image-src"
    (Val.str p.src) (getImageData p) 0 i hf (getImageData_class_none p)
  simp [handleActiveImageData, h1]

theorem processRegions_cons_none (st : DBState) (src : String) (r : Record)
    (rest : List Record) (h : lookupF r "type" = none) :
    processRegions st src (r :: rest) = (st, false) := by
  show (match lookupF r "type" with
    | none => (st, false)
    | some ty =>
        let q := saveRegionInfo st ty src r
        if q.2 then processRegions q.1 src rest else (q.1, false)) = (st, false)
  rw [h]

theorem processRegions_cons_some (st : DBState) (src : String) (r : Record)
    (rest : List Record) (ty : Val) (h : lookupF r "type" = some ty) :
    processRegions st src (r :: rest) =
      (if (saveRegionInfo st ty src r).2 then
        processRegions (saveRegionInfo st ty src r).1 src rest
       else ((saveRegionInfo st ty src r).1, false)) := by
  show (match lookupF r "type" with
    | none => (st, false)
    | some ty =>
        let q := saveRegionInfo st ty src r
        if q.2 then processRegions q.1 src rest else (q.1, false)) =
    (if (saveRegionInfo st ty src r).2 then
      processRegions (saveRegionInfo st ty src r).1 src rest
     else ((saveRegionInfo st ty src r).1, false))
  rw [h]

theorem circleUpsert_files (st : DBState) (rd : Record) :
    (circleUpsert st rd).1.fImages = st.fImages ∧
    (circleUpsert st rd).1.fCircle = st.fCircle ∧
    (circleUpsert st rd).1.fBox = st.fBox ∧
    (circleUpsert st rd).1.fPolygon = st.fPolygon := by
  unfold circleUpsert
  repeat' split
  all_goals exact ⟨rfl, rfl, rfl, rfl⟩

theorem boxUpsert_files (st : DBState) (rd : Record) :
    (boxUpsert st rd).1.fImages = st.fImages ∧
    (boxUpsert st rd).1.fCircle = st.fCircle ∧
    (boxUpsert st rd).1.fBox = st.fBox ∧
    (boxUpsert st rd).1.fPolygon = st.fPolygon := by
  unfold boxUpsert
  repeat' split
  all_goals exact ⟨rfl, rfl, rfl, rfl⟩

theorem polygonUpsert_files (st : DBState) (rd : Record) :
    (polygonUpsert st rd).1.fImages = st.fImages ∧
    (polygonUpsert st rd).1.fCircle = st.fCircle ∧
    (polygonUpsert st rd).1.fBox = st.fBox ∧
    (polygonUpsert st rd).1.fPolygon = st.fPolygon := by
  unfold polygonUpsert
  repeat' split
  all_goals exact ⟨rfl, rfl, rfl, rfl⟩

theorem circleRegion_files (st : DBState) (rd data : Record) :
    (circleRegion st rd data).1.fImages = st.fImages ∧
    (circleRegion st rd data).1.fCircle = st.fCircle ∧
    (circleRegion st rd data).1.fBox = st.fBox ∧
    (circleRegion st rd data).1.fPolygon = st.fPolygon := by
  unfold circleRegion
  repeat' split
  all_goals first
    | exact ⟨rfl, rfl, rfl, rfl⟩
    | apply circleUpsert_files

theorem boxRegion_files (st : DBState) (rd data : Record) :
    (boxRegion st rd data).1.fImages = st.fImages ∧
    (boxRegion st rd data).1.fCircle = st.fCircle ∧
    (boxRegion st rd data).1.fBox = st.fBox ∧
    (boxRegion st rd data).1.fPolygon = st.fPolygon := by
  unfold boxRegion
  repeat' split
  all_goals first
    | exact ⟨rfl, rfl, rfl, rfl⟩
    | apply boxUpsert_files

theorem polygonRegion_files (st : DBState) (rd data : Record) :
    (polygonRegion st rd data).1.fImages = st.fImages ∧
    (polygonRegion st rd data).1.fCircle = st.fCircle ∧
    (polygonRegion st rd data).1.fBox = st.fBox ∧
    (polygonRegion st rd data).1.fPolygon = st.fPolygon := by
  unfold polygonRegion
  repeat' split
  all_goals first
    | exact ⟨rfl, rfl, rfl, rfl⟩
    | apply polygonUpsert_files

theorem otherRegion_files (st : DBState) (rd data : Record) :
    (otherRegion st rd data).1.fImages = st.fImages ∧
    (otherRegion st rd data).1.fCircle = st.fCircle ∧
    (otherRegion st rd data).1.fBox = st.fBox ∧
    (otherRegion st rd data).1.fPolygon = st.fPolygon := by
  unfold otherRegion
  repeat' split
  all_goals exact ⟨rfl, rfl, rfl, rfl⟩

theorem saveRegionInfo_build_none (st : DBState) (ty : Val) (src : String)
    (data : Record) (hb : buildRegionData src data = none) :
    saveRegionInfo st ty src data = (st, false) := by
  show (match buildRegionData src data with
    | none => (st, false)
    | some regionData =>
        if ty = Val.str "circle" then circleRegion st regionData data
        else if ty = Val.str "box" then boxRegion st regionData data
        else if ty = Val.str "polygon" then polygonRegion st regionData data
        else otherRegion st regionData data) = (st, false)
  rw [hb]

theorem saveRegionInfo_build_some (st : DBState) (ty : Val) (src : String)
    (data rd : Record) (hb : buildRegionData src data = some rd) :
    saveRegionInfo st ty src data =
      (if ty = Val.str "circle" then circleRegion st rd data
       else if ty = Val.str "box" then boxRegion st rd data
       else if ty = Val.str "polygon" then polygonRegion st rd data
       else otherRegion st rd data) := by
  show (match buildRegionData src data with
    | none => (st, false)
    | some regionData =>
        if ty = Val.str "circle" then circleRegion st regionData data
        else if ty = Val.str "box" then boxRegion st regionData data
        else if ty = Val.str "polygon" then polygonRegion st regionData data
        else otherRegion st regionData data) =
    (if ty = Val.str "circle" then circleRegion st rd data
     else if ty = Val.str "box" then boxRegion st rd data
     else if ty = Val.str "polygon" then polygonRegion st rd data
     else otherRegion st rd data)
  rw [hb]

theorem saveRegionInfo_files (st : DBState) (ty : Val) (src : String)
    (data : Record) :
    (saveRegionInfo st ty src data).1.fImages = st.fImages ∧
    (saveRegionInfo st ty src data).1.fCircle = st.fCircle ∧
    (saveRegionInfo st ty src data).1.fBox = st.fBox ∧
    (saveRegionInfo st ty src data).1.fPolygon = st.fPolygon := by
  cases hb : buildRegionData src data with
  | none =>
      rw [saveRegionInfo_build_none st ty src data hb]
      exact ⟨rfl, rfl, rfl, rfl⟩
  | some rd =>
      rw [saveRegionInfo_build_some st ty src data rd hb]
      by_cases h1 : ty = Val.str "circle"
      · rw [if_pos h1]; apply circleRegion_files
      · rw [if_neg h1]
        by_cases h2 : ty = Val.str "box"
        · rw [if_pos h2]; apply boxRegion_files
        · rw [if_neg h2]
          by_cases h3 : ty = Val.str "polygon"
          · rw [if_pos h3]; apply polygonRegion_files
          · rw [if_neg h3]; apply otherRegion_files

theorem processRegions_files (src : String) :
    ∀ (rs : List Record) (st : DBState),
      (processRegions st src rs).1.fImages = st.fImages ∧
      (processRegions st src rs).1.fCircle = st.fCircle ∧
      (processRegions st src rs).1.fBox = st.fBox ∧
      (processRegions st src rs).1.fPolygon = st.fPolygon := by
  intro rs
  induction rs with
  | nil => intro st; exact ⟨rfl, rfl, rfl, rfl⟩
  | cons r rest ih =>
      intro st
      cases hty : lookupF r "type" with
      | none =>
          rw [processRegions_cons_none st src r rest hty]
          exact ⟨rfl, rfl, rfl, rfl⟩
      | some ty =>
          rw [processRegions_cons_some st src r rest ty hty]
          have hsf := saveRegionInfo_files st ty src r
          by_cases hb : (saveRegionInfo st ty src r).2 = true
          · rw [if_pos hb]
            have hih := ih (saveRegionInfo st ty src r).1
            exact ⟨hih.1.trans hsf.1, hih.2.1.trans hsf.2.1,
                   hih.2.2.1.trans hsf.2.2.1, hih.2.2.2.trans hsf.2.2.2⟩
          · rw [if_neg hb]
            exact hsf

theorem staleFiltered_files (st1 : DBState) (src : String) (ids : List Val) :
    (staleFiltered st1 src ids).fImages = st1.fImages ∧
    (staleFiltered st1 src ids).fCircle = st1.fCircle ∧
    (staleFiltered st1 src ids).fBox = st1.fBox ∧
    (staleFiltered st1 src ids).fPolygon = st1.fPolygon := by
  exact ⟨rfl, rfl, rfl, rfl⟩

theorem reconcileRegions_none (st1 : DBState) (p : Payload)
    (hc : collectIds p.regions = none) :
    reconcileRegions st1 p = (st1, false) := by
  show (match collectIds p.regions with
    | none => (st1, false)
    | some newIds =>
        let st2 := staleFiltered st1 p.src newIds
        let pr := processRegions st2 p.src p.regions
        if pr.2 then (saveDataAutomatically pr.1, true) else (pr.1, false)) =
    (st1, false)
  rw [hc]

theorem reconcileRegions_some (st1 : DBState) (p : Payload) (ids : List Val)
    (hc : collectIds p.regions = some ids) :
    reconcileRegions st1 p =
      (if (processRegions (staleFiltered st1 p.src ids) p.src p.regions).2 then
        (saveDataAutomatically
          (processRegions (staleFiltered st1 p.src ids) p.src p.regions).1, true)
       else ((processRegions (staleFiltered st1 p.src ids) p.src p.regions).1,
         false)) := by
  show (match collectIds p.regions with
    | none => (st1, false)
    | some newIds =>
        let st2 := staleFiltered st1 p.src newIds
        let pr := processRegions st2 p.src p.regions
        if pr.2 then (saveDataAutomatically pr.1, true) else (pr.1, false)) =
    (if (processRegions (staleFiltered st1 p.src ids) p.src p.regions).2 then
      (saveDataAutomatically
        (processRegions (staleFiltered st1 p.src ids) p.src p.regions).1, true)
     else ((processRegions (staleFiltered st1 p.src ids) p.src p.regions).1,
       false))
  rw [hc]

theorem reconcileRegions_files (st1 : DBState) (p : Payload)
    (h : (reconcileRegions st1 p).2 = false) :
    (reconcileRegions st1 p).1.fImages = st1.fImages ∧
    (reconcileRegions st1 p).1.fCircle = st1.fCircle ∧
    (reconcileRegions st1 p).1.fBox = st1.fBox ∧
    (reconcileRegions st1 p).1.fPolygon = st1.fPolygon := by
  cases hc : collectIds p.regions with
  | none =>
      rw [reconcileRegions_none st1 p hc]
      exact ⟨rfl, rfl, rfl, rfl⟩
  | some ids =>
      rw [reconcileRegions_some st1 p ids hc] at h ⊢
      by_cases hb : (processRegions (staleFiltered st1 p.src ids) p.src
          p.regions).2 = true
      · rw [if_pos hb] at h
        simp at h
      · rw [if_neg hb]
        have hpf := processRegions_files p.src p.regions
          (staleFiltered st1 p.src ids)
        have hsf := staleFiltered_files st1 p.src ids
        exact ⟨hpf.1.trans hsf.1, hpf.2.1.trans hsf.2.1,
               hpf.2.2.1.trans hsf.2.2.1, hpf.2.2.2.trans hsf.2.2.2⟩

theorem collectIds_cons_none (a : Record) (l : List Record)
    (h : lookupF a "id" = none) : collectIds (a :: l) = none := by
  show (match lookupF a "id" with
    | none => none
    | some v => (collectIds l).map (v :: ·)) = none
  rw [h]

theorem collectIds_cons_some (a : Record) (l : List Record) (v : Val)
    (h : lookupF a "id" = some v) :
    collectIds (a :: l) = (collectIds l).map (v :: ·) := by
  show (match lookupF a "id" with
    | none => none
    | some w => (collectIds l).map (w :: ·)) = (collectIds l).map (v :: ·)
  rw [h]

theorem collectIds_none :
    ∀ (l : List Record) (r : Record), r ∈ l → lookupF r "id" = none →
      collectIds l = none := by
  intro l
  induction l with
  | nil => intro r hr; simp at hr
  | cons a rest ih =>
      intro r hr hid
      rcases List.mem_cons.mp hr with heq | hr2
      · rw [heq] at hid
        rw [collectIds_cons_none a rest hid]
      · cases hx : lookupF a "id" with
        | none => rw [collectIds_cons_none a rest hx]
        | some v =>
            rw [collectIds_cons_some a rest v hx, ih r hr2 hid]
            rfl

/-! ### Claim theorems -/

/-- C8: if `handleNewData` returns `False`, none of the four persisted
table files has been written during the call — persistence
(`saveDataAutomatically`) happens only as the final step on full
success, even though the in-memory tables may be partially mutated. -/
theorem c8_no_persist_on_failure (st : DBState) (p : Payload)
    (h : (handleNewData st p).2 = false) :
    (handleNewData st p).1.fImages = st.fImages ∧
    (handleNewData st p).1.fCircle = st.fCircle ∧
    (handleNewData st p).1.fBox = st.fBox ∧
    (handleNewData st p).1.fPolygon = st.fPolygon := by
  simp only [handleNewData] at h ⊢
  by_cases hok : (saveRegionInDB st.imagesInfo "image-src" (Val.str p.src)
      (getImageData p) 0).ok = false
  · rw [if_pos hok]
    exact ⟨rfl, rfl, rfl, rfl⟩
  · rw [if_neg hok] at h ⊢
    exact reconcileRegions_files _ p h

def c8state : DBState :=
  { emptyDB with imagesInfo :=
    [[("image-name", Val.str "n"), ("selected-classes", Val.str "A"),
      ("comment", Val.str "c"), ("image-original-height", Val.int 5),
      ("image-original-width", Val.int 7), ("image-src", Val.str "s"),
      ("processed", Val.int 1)]] }

def c8payload : Payload :=
  { name := "n", src := "s", comment := "c", cls := ["A"],
    pixelSize := some (5, 7), regions := [] }

theorem c8_no_persist_on_failure_witness :
    (handleNewData c8state c8payload).1.fImages = c8state.fImages ∧
    (handleNewData c8state c8payload).1.fCircle = c8state.fCircle ∧
    (handleNewData c8state c8payload).1.fBox = c8state.fBox ∧
    (handleNewData c8state c8payload).1.fPolygon = c8state.fPolygon :=
  c8_no_persist_on_failure c8state c8payload (by decide)

def c6payload : Payload :=
  { name := "n", src := "s", comment := "c", cls := ["A"],
    pixelSize := some (5, 7), regions := [] }

/-- C6 counterexample: for a payload whose image is new, a second
`handleNewData` call with the identical payload appends a duplicate
Images row (the inserted row's wrapped `image-src` cell never matches
the scalar lookup), so the tables after two calls differ from the
tables after one call — `handleNewData` is not idempotent. -/
theorem c6_idempotent_refuted :
    ¬ ((handleNewData (handleNewData emptyDB c6payload).1 c6payload).1.imagesInfo
        = (handleNewData emptyDB c6payload).1.imagesInfo) := by decide

/-- C6 (amended): `handleNewData` is idempotent for payloads whose
`image-src` equals the (scalar) `image-src` cell of an existing Images
row: each such call fails the image-metadata update immediately (the
eagerly evaluated `data['class']` default raises `KeyError`) and
returns `False` leaving the whole state unchanged, so a second call
yields exactly the state of the first. -/
theorem c6_idempotent_on_existing (st : DBState) (p : Payload) (i : Nat)
    (hf : findInfoInDb st.imagesInfo "image-src" (Val.str p.src) = some i) :
    handleNewData st p = (st, false) ∧
    handleNewData (handleNewData st p).1 p = handleNewData st p := by
  have h1 := handleNewData_existing st p i hf
  refine ⟨h1, ?_⟩
  rw [h1]
  exact h1

def c6state : DBState :=
  { emptyDB with imagesInfo :=
    [[("image-name", Val.str "n"), ("selected-classes", Val.str "A"),
      ("comment", Val.str "c"), ("image-original-height", Val.int 5),
      ("image-original-width", Val.int 7), ("image-src", Val.str "s"),
      ("processed", Val.int 1)]] }

theorem c6_idempotent_on_existing_witness :
    handleNewData c6state c6payload = (c6state, false) ∧
    handleNewData (handleNewData c6state c6payload).1 c6payload
      = handleNewData c6state c6payload :=
  c6_idempotent_on_existing c6state c6payload 0 (by decide)

/-- C10: for a payload that omits `pixelSize` while its `image-src`
already has an Images row, `getImageData` yields empty lists for the
original height and width, the scalar unwrapping of the update path
(`value[0]` under `status == 0`) fails on such an empty list for every
row, and both `handleActiveImageData` and the image-metadata step of
`handleNewData` report failure (`False`). -/
theorem c10_missing_pixel_size (st : DBState) (p : Payload) (i : Nat)
    (hpix : p.pixelSize = none)
    (hf : findInfoInDb st.imagesInfo "image-src" (Val.str p.src) = some i) :
    lookupF (getImageData p) "image-original-height" = some (Val.list []) ∧
    lookupF (getImageData p) "image-original-width" = some (Val.list []) ∧
    (∀ row : Record, (applyFields row (getImageData p) 0).2 = false) ∧
    (handleActiveImageData st p).2 = false ∧
    (handleNewData st p).2 = false := by
  obtain ⟨nm, sr, cm, cls, pix, rgs⟩ := p
  simp only at hpix hf
  subst hpix
  refine ⟨rfl, rfl, fun row => rfl, ?_, ?_⟩
  · rw [handleActiveImageData_existing st ⟨nm, sr, cm, cls, none, rgs⟩ i hf]
  · rw [handleNewData_existing st ⟨nm, sr, cm, cls, none, rgs⟩ i hf]

def c10state : DBState :=
  { emptyDB with imagesInfo :=
    [[("image-name", Val.str "n"), ("selected-classes", Val.str "A"),
      ("comment", Val.str "c"), ("image-original-height", Val.int 5),
      ("image-original-width", Val.int 7), ("image-src", Val.str "s"),
      ("processed", Val.int 1)]] }

def c10payload : Payload :=
  { name := "n", src := "s", comment := "c", cls := ["A"],
    pixelSize := none, regions := [] }

theorem c10_missing_pixel_size_witness :
    lookupF (getImageData c10payload) "image-original-height" = some (Val.list []) ∧
    lookupF (getImageData c10payload) "image-original-width" = some (Val.list []) ∧
    (∀ row : Record, (applyFields row (getImageData c10payload) 0).2 = false) ∧
    (handleActiveImageData c10state c10payload).2 = false ∧
    (handleNewData c10state c10payload).2 = false :=
  c10_missing_pixel_size c10state c10payload 0 rfl (by decide)

def c9payload : Payload :=
  { name := "n", src := "s", comment := "c", cls := ["A"],
    pixelSize := some (5, 7),
    regions := [[("type", Val.str "box"), ("cls", Val.str "bc"),
      ("coords", Val.dict [("x", Val.int 1), ("y", Val.int 2),
                           ("w", Val.int 3), ("h", Val.int 4)])]] }

/-- C9 counterexample: a region payload without an `id` field makes
`handleNewData` fail (return `False`); no generated identifier is ever
substituted, refuting the claim that processing such a payload does
not fail. -/
theorem c9_no_id_refuted : (handleNewData emptyDB c9payload).2 = false := by
  decide

/-- C9 (amended): `generateUid` returns a supplied identifier unchanged
and produces the fresh identifier when none is supplied, but the
region-saving path never invokes it: any payload containing a region
without an `id` key makes `handleNewData` raise `KeyError` and return
`False`. -/
theorem c9_generate_uid_unused :
    (∀ fresh idv : Val, generateUid fresh (some idv) = idv) ∧
    (∀ fresh : Val, generateUid fresh none = fresh) ∧
    (∀ (st : DBState) (p : Payload),
      (∃ r ∈ p.regions, lookupF r "id" = none) →
      (handleNewData st p).2 = false) := by
  refine ⟨fun _ _ => rfl, fun _ => rfl, ?_⟩
  rintro st p ⟨r, hr, hid⟩
  simp only [handleNewData]
  by_cases hok : (saveRegionInDB st.imagesInfo "image-src" (Val.str p.src)
      (getImageData p) 0).ok = false
  · rw [if_pos hok]
  · rw [if_neg hok]
    rw [reconcileRegions_none _ _ (collectIds_none p.regions r hr hid)]

theorem c9_generate_uid_unused_witness :
    generateUid (Val.str "u") (some (Val.str "7")) = Val.str "7" ∧
    generateUid (Val.str "u") none = Val.str "u" ∧
    (handleNewData emptyDB c9payload).2 = false :=
  ⟨c9_generate_uid_unused.1 (Val.str "u") (Val.str "7"),
   c9_generate_uid_unused.2.1 (Val.str "u"),
   c9_generate_uid_unused.2.2 emptyDB c9payload
     ⟨[("type", Val.str "box"), ("cls", Val.str "bc"),
       ("coords", Val.dict [("x", Val.int 1), ("y", Val.int 2),
                            ("w", Val.int 3), ("h", Val.int 4)])],
      by decide, by decide⟩⟩

def c3table : Table :=
  [[("image-name", Val.str "n"), ("selected-classes", Val.str "A;B"),
    ("comment", Val.str ""), ("image-original-height", Val.int 5),
    ("image-original-width", Val.int 7), ("image-src", Val.str "s"),
    ("processed", Val.int 1)]]

def c3payload : Payload :=
  { name := "n", src := "s", comment := "c", cls := ["B", "C"],
    pixelSize := some (5, 7), regions := [] }

/-- C3: with a stored image row whose selected classes are "A;B" and an
incoming image-level record whose selected classes are "B;C", the
update path of `saveRegionInDB` makes NO Class Index Gateway call at
all and fails: `data.get('selected-classes', data['class'])` evaluates
its default eagerly and image records carry no `class` key, so
`KeyError` is raised before the class delta is ever computed.  The
claimed single register("C") and single unregister("A") never happen. -/
theorem c3_class_delta_impossible :
    saveRegionInDB c3table "image-src" (Val.str "s")
      (getImageData c3payload) 0 = ⟨c3table, [], false⟩ := by decide

theorem saveRegionInDB_insert_noSel (T : Table) (col : String) (uid : Val)
    (R : Record) (status : Nat)
    (hfind : findInfoInDb T col uid = none)
    (hsel : lookupF R "selected-classes" = none) :
    saveRegionInDB T col uid R status = ⟨T ++ [R], [], true⟩ := by
  simp only [saveRegionInDB, hfind, hsel]

theorem saveRegionInDB_insert_iterFail (T : Table) (col : String) (uid : Val)
    (R : Record) (status : Nat) (selV : Val)
    (hfind : findInfoInDb T col uid = none)
    (hsel : lookupF R "selected-classes" = some selV)
    (hit : pyIter (selSplit selV) = none) :
    saveRegionInDB T col uid R status = ⟨T, [], false⟩ := by
  simp only [saveRegionInDB, hfind, hsel, hit]

theorem saveRegionInDB_insert_sel (T : Table) (col : String) (uid : Val)
    (R : Record) (status : Nat) (selV : Val) (classes : List Val)
    (hfind : findInfoInDb T col uid = none)
    (hsel : lookupF R "selected-classes" = some selV)
    (hit : pyIter (selSplit selV) = some classes) :
    saveRegionInDB T col uid R status =
      (if (insertCallsLoop classes R).2 then
        ⟨T ++ [R], (insertCallsLoop classes R).1, true⟩
       else ⟨T, (insertCallsLoop classes R).1, false⟩) := by
  simp only [saveRegionInDB, hfind, hsel, hit]

theorem saveRegionInDB_update_setsFail (T : Table) (col : String) (uid : Val)
    (R : Record) (status : Nat) (i : Nat) (row : Record) (clsV : Val)
    (hfind : findInfoInDb T col uid = some i)
    (hcls : lookupF R "class" = some clsV)
    (hrow : T[i]? = some row)
    (hsets : computeCatSets row R
      (unwrapSingleStr ((lookupF R "selected-classes").getD clsV)) = none) :
    saveRegionInDB T col uid R status = ⟨T, [], false⟩ := by
  simp only [saveRegionInDB, hfind, hcls, hrow, hsets]

theorem saveRegionInDB_update_steps (T : Table) (col : String) (uid : Val)
    (R : Record) (status : Nat) (i : Nat) (row : Record) (clsV : Val)
    (sets : List Val × List Val)
    (hfind : findInfoInDb T col uid = some i)
    (hcls : lookupF R "class" = some clsV)
    (hrow : T[i]? = some row)
    (hsets : computeCatSets row R
      (unwrapSingleStr ((lookupF R "selected-classes").getD clsV)) = some sets) :
    saveRegionInDB T col uid R status = updateRow T i R status sets row := by
  simp only [saveRegionInDB, hfind, hcls, hrow, hsets]

theorem updateRow_table (T : Table) (i : Nat) (R : Record) (status : Nat)
    (sets : List Val × List Val) (row : Record) :
    (updateRow T i R status sets row).table
      = T.set i (applyFields row R status).1 := by
  simp only [updateRow]
  repeat' split
  all_goals rfl

theorem updateRow_ok_apply (T : Table) (i : Nat) (R : Record) (status : Nat)
    (sets : List Val × List Val) (row : Record)
    (h : (updateRow T i R status sets row).ok = true) :
    (applyFields row R status).2 = true := by
  cases hb : (applyFields row R status).2 with
  | false =>
      exfalso
      simp [updateRow, hb] at h
  | true => rfl

/-- C1 counterexample: a record that carries `selected-classes` but no
`image-name` raises `KeyError` in the insert-path registration loop, and
the caller's table is left WITHOUT the appended row — the claim's
unconditional "returns T with exactly one new row appended" is false. -/
theorem c1_insert_refuted :
    ¬ ((saveRegionInDB [] "image-src" (Val.str "s")
        [("selected-classes", Val.list [Val.str "A"])] 0).table
      = [] ++ [[("selected-classes", Val.list [Val.str "A"])]]) := by decide

/-- C1 (amended): when the key value does not occur in the table's key
column, `saveRegionInDB` returns `T` with exactly the incoming record
appended as one new row at the end and every pre-existing row unchanged,
whenever the call returns normally; for every record not carrying
`selected-classes` the call always returns normally (with no gateway
calls).  A record whose insert-path registration raises leaves the
caller's table without the new row. -/
theorem c1_insert_appends (T : Table) (col : String) (uid : Val) (R : Record)
    (status : Nat) (hfind : findInfoInDb T col uid = none) :
    ((saveRegionInDB T col uid R status).ok = true →
      (saveRegionInDB T col uid R status).table = T ++ [R]) ∧
    (lookupF R "selected-classes" = none →
      saveRegionInDB T col uid R status = ⟨T ++ [R], [], true⟩) := by
  constructor
  · intro hok
    cases hsel : lookupF R "selected-classes" with
    | none => rw [saveRegionInDB_insert_noSel T col uid R status hfind hsel]
    | some selV =>
        cases hit : pyIter (selSplit selV) with
        | none =>
            rw [saveRegionInDB_insert_iterFail T col uid R status selV
              hfind hsel hit] at hok
            simp at hok
        | some classes =>
            rw [saveRegionInDB_insert_sel T col uid R status selV classes
              hfind hsel hit] at hok ⊢
            by_cases hic : (insertCallsLoop classes R).2 = true
            · rw [if_pos hic]
            · rw [if_neg hic] at hok
              simp at hok
  · intro hsel
    exact saveRegionInDB_insert_noSel T col uid R status hfind hsel

theorem c1_insert_appends_witness :
    saveRegionInDB [[("region-id", Val.str "9")]] "region-id" (Val.str "7")
        [("region-id", Val.str "7"), ("class", Val.str "c")] 1
      = ⟨[[("region-id", Val.str "9")],
          [("region-id", Val.str "7"), ("class", Val.str "c")]], [], true⟩ :=
  (c1_insert_appends [[("region-id", Val.str "9")]] "region-id" (Val.str "7")
      [("region-id", Val.str "7"), ("class", Val.str "c")] 1 (by decide)).2
    (by decide)

def c2table : Table := [[("image-src", Val.str "s"), ("image-name", Val.str "old")]]

def c2record : Record :=
  [("image-name", Val.list [Val.str "new"]), ("image-src", Val.list [Val.str "s"]),
   ("selected-classes", Val.list [Val.str "A"])]

/-- C2 counterexample: for an image-level record (which carries no
`class` key), the update path raises `KeyError` at the eagerly
evaluated `data['class']` default and overwrites nothing: the first
matching row keeps its old `image-name`, refuting the claim for "every
incoming record". -/
theorem c2_update_refuted :
    lookupF ((saveRegionInDB c2table "image-src" (Val.str "s") c2record 0).table.headD [])
      "image-name" ≠ some (Val.str "new") := by decide

/-- C2 (amended): when the key occurs (first match at position i) and
the call returns normally — which requires the record to carry a
`class` key, since `data.get('selected-classes', data['class'])`
evaluates its default eagerly — the resulting table has the same row
count, every row other than row i is unchanged, and row i holds, for
every field of the incoming record, the incoming value: taken as
`value[0]` when the status flag is 0 (image-level wrapped fields) and
verbatim when it is 1. -/
theorem c2_update_in_place (T : Table) (col : String) (uid : Val) (R : Record)
    (status : Nat) (i : Nat)
    (hfind : findInfoInDb T col uid = some i)
    (hnd : (R.map Prod.fst).Nodup)
    (hok : (saveRegionInDB T col uid R status).ok = true) :
    (saveRegionInDB T col uid R status).table.length = T.length ∧
    (∀ j, j ≠ i → (saveRegionInDB T col uid R status).table[j]? = T[j]?) ∧
    (∀ (k : String) (v : Val), lookupF R k = some v →
      ∃ w, (if status = 0 then pyIndex0 v else some v) = some w ∧
        ((saveRegionInDB T col uid R status).table[i]?).bind
          (fun r => lookupF r k) = some w) := by
  have hlt := findInfoInDb_lt T col uid i hfind
  have hrow : T[i]? = some T[i] := List.getElem?_eq_getElem hlt
  cases hcls : lookupF R "class" with
  | none =>
      rw [saveRegionInDB_update_noClass T col uid R status i hfind hcls] at hok
      simp at hok
  | some clsV =>
      cases hsets : computeCatSets T[i] R
          (unwrapSingleStr ((lookupF R "selected-classes").getD clsV)) with
      | none =>
          rw [saveRegionInDB_update_setsFail T col uid R status i T[i] clsV
            hfind hcls hrow hsets] at hok
          simp at hok
      | some sets =>
          rw [saveRegionInDB_update_steps T col uid R status i T[i] clsV sets
            hfind hcls hrow hsets] at hok ⊢
          have happ := updateRow_ok_apply T i R status sets T[i] hok
          rw [updateRow_table T i R status sets T[i]]
          refine ⟨by simp, ?_, ?_⟩
          · intro j hj
            exact List.getElem?_set_ne (fun hc => hj hc.symm)
          · intro k v hkv
            obtain ⟨w, hw, hl⟩ := applyFields_lookup R status T[i] hnd happ k v hkv
            refine ⟨w, hw, ?_⟩
            rw [List.getElem?_set_eq_of_lt _ hlt]
            show lookupF (applyFields T[i] R status).1 k = some w
            exact hl

def c2wTable : Table :=
  [[("region-id", Val.str "K"), ("class", Val.str "old"), ("x", Val.int 0)]]

def c2wRecord : Record :=
  [("class", Val.list [Val.str "cat"]), ("x", Val.list [Val.int 5])]

theorem c2_update_in_place_witness :
    (saveRegionInDB c2wTable "region-id" (Val.str "K") c2wRecord 0).table.length
      = c2wTable.length ∧
    (∀ j, j ≠ 0 →
      (saveRegionInDB c2wTable "region-id" (Val.str "K") c2wRecord 0).table[j]?
        = c2wTable[j]?) ∧
    (∀ (k : String) (v : Val), lookupF c2wRecord k = some v →
      ∃ w, (if (0 : Nat) = 0 then pyIndex0 v else some v) = some w ∧
        ((saveRegionInDB c2wTable "region-id" (Val.str "K") c2wRecord 0).table[0]?).bind
          (fun r => lookupF r k) = some w) :=
  c2_update_in_place c2wTable "region-id" (Val.str "K") c2wRecord 0 0
    (by decide) (by decide) (by decide)

def c5circRow1 : Record :=
  [("region-id", Val.str "1"), ("image-src", Val.str "s"), ("class", Val.str "c1"),
   ("comment", Val.str ""), ("tags", Val.str ""), ("rx", Val.int 1),
   ("ry", Val.int 1), ("rw", Val.int 1), ("rh", Val.int 1)]

def c5boxRow2 : Record :=
  [("region-id", Val.str "2"), ("image-src", Val.str "s"), ("class", Val.str "c2"),
   ("comment", Val.str ""), ("tags", Val.str ""), ("x", Val.int 2),
   ("y", Val.int 2), ("w", Val.int 2), ("h", Val.int 2)]

def c5polyRow3 : Record :=
  [("region-id", Val.str "3"), ("image-src", Val.str "s"), ("class", Val.str "c3"),
   ("comment", Val.str ""), ("tags", Val.str ""), ("points", Val.str "0-0;1-1")]

def c5payload : Payload :=
  { name := "n", src := "s", comment := "c", cls := ["A"],
    pixelSize := some (5, 7),
    regions :=
      [[("id", Val.str "2"), ("type", Val.str "box"), ("cls", Val.str "c2"),
        ("coords", Val.dict [("x", Val.int 20), ("y", Val.int 21),
                             ("w", Val.int 22), ("h", Val.int 23)])],
       [("id", Val.str "3"), ("type", Val.str "polygon"), ("cls", Val.str "c3"),
        ("points", Val.list [Val.list [Val.int 1, Val.int 2],
                             Val.list [Val.int 3, Val.int 4]])],
       [("id", Val.str "4"), ("type", Val.str "circle"), ("cls", Val.str "c4"),
        ("coords", Val.dict [("rx", Val.int 40), ("ry", Val.int 41),
                             ("rw", Val.int 42), ("rh", Val.int 43)])]] }

def c5start : DBState :=
  { emptyDB with circle := [c5circRow1], box := [c5boxRow2],
                 polygon := [c5polyRow3] }

/-- C5 (amended): PROVIDED the payload's image-src has no row in the
Images table (so the image-metadata upsert takes its insert path; with
an existing row it raises and no region reconciliation happens, see the
counterexample), the session reconcile behaves as claimed: with stored
region ids 1 (circle), 2 (box), 3 (polygon) and incoming ids 2, 3, 4,
the stale id 1 — the set difference of the stored ids over the union of
the three region tables minus the incoming ids — is removed from all
three region tables, region 4 is inserted as a new row in the circle
table, regions 2 and 3 are updated in place without duplicate rows, and
the handler reports success. -/
theorem c5_session_reconcile :
    (handleNewData c5start c5payload).2 = true ∧
    (handleNewData c5start c5payload).1.circle =
      [[("region-id", Val.str "4"), ("image-src", Val.str "s"),
        ("class", Val.str "c4"), ("comment", Val.str ""), ("tags", Val.str ""),
        ("rx", Val.list [Val.int 40]), ("ry", Val.list [Val.int 41]),
        ("rw", Val.list [Val.int 42]), ("rh", Val.list [Val.int 43])]] ∧
    (handleNewData c5start c5payload).1.box =
      [[("region-id", Val.str "2"), ("image-src", Val.str "s"),
        ("class", Val.str "c2"), ("comment", Val.str ""), ("tags", Val.str ""),
        ("x", Val.list [Val.int 20]), ("y", Val.list [Val.int 21]),
        ("w", Val.list [Val.int 22]), ("h", Val.list [Val.int 23])]] ∧
    (handleNewData c5start c5payload).1.polygon =
      [[("region-id", Val.str "3"), ("image-src", Val.str "s"),
        ("class", Val.str "c3"), ("comment", Val.str ""), ("tags", Val.str ""),
        ("points", Val.str "1-2;3-4")]] ∧
    (∀ row ∈ (handleNewData c5start c5payload).1.circle ++
        (handleNewData c5start c5payload).1.box ++
        (handleNewData c5start c5payload).1.polygon,
      lookupF row "region-id" ≠ some (Val.str "1")) := by decide

def c5imgRow : Record :=
  [("image-name", Val.str "n"), ("selected-classes", Val.str "A"),
   ("comment", Val.str "c"), ("image-original-height", Val.int 5),
   ("image-original-width", Val.int 7), ("image-src", Val.str "s"),
   ("processed", Val.int 1)]

def c5startB : DBState :=
  { emptyDB with imagesInfo := [c5imgRow], circle := [c5circRow1],
                 box := [c5boxRow2], polygon := [c5polyRow3] }

/-- C5 counterexample: in the ordinary situation where the image's row
IS present in the Images table, the same payload makes `handleNewData`
fail before any region reconciliation (KeyError at the eagerly
evaluated `data['class']` default), so stale region 1 is NOT removed —
the claim is false at this input. -/
theorem c5_reconcile_refuted :
    (handleNewData c5startB c5payload).2 = false ∧
    ¬ (∀ row ∈ (handleNewData c5startB c5payload).1.circle,
        lookupF row "region-id" ≠ some (Val.str "1")) := by decide

def c7mk (nm src cm eId eCls bId bCls : String) (x y w h : Int) : Payload :=
  { name := nm, src := src, comment := cm, cls := ["A"],
    pixelSize := some (5, 7),
    regions :=
      [[("id", Val.str eId), ("type", Val.str "ellipse"), ("cls", Val.str eCls)],
       [("id", Val.str bId), ("type", Val.str "box"), ("cls", Val.str bCls),
        ("coords", Val.dict [("x", Val.int x), ("y", Val.int y),
                             ("w", Val.int w), ("h", Val.int h)])]] }

def c7imgRow : Record :=
  [("image-name", Val.str "n"), ("selected-classes", Val.str "A"),
   ("comment", Val.str "c"), ("image-original-height", Val.int 5),
   ("image-original-width", Val.int 7), ("image-src", Val.str "s"),
   ("processed", Val.int 1)]

/-- C7 counterexample: when the payload's image-src already has an
Images row, `handleNewData` returns `False` and the valid box region is
NOT saved — the claim's unconditional "box saved, success = true" is
false at this input. -/
theorem c7_soft_fail_refuted :
    (handleNewData { emptyDB with imagesInfo := [c7imgRow] }
      (c7mk "n" "s" "c" "e1" "ec" "b1" "bc" 1 2 3 4)).2 = false ∧
    (handleNewData { emptyDB with imagesInfo := [c7imgRow] }
      (c7mk "n" "s" "c" "e1" "ec" "b1" "bc" 1 2 3 4)).1.box = [] := by decide

/-- C7 (amended): for a payload whose image-src is new to the Images
table, containing one region of the unknown type "ellipse" (with id and
class fields) and one valid box region, `handleNewData` saves the box
region, writes no record for the unknown-type region in any of the
three region tables (it is only reported and dropped), and returns
overall success. -/
theorem c7_unknown_type_soft_fail (nm src cm eId eCls bId bCls : String)
    (x y w h : Int) (hne : eId ≠ bId) :
    (handleNewData emptyDB (c7mk nm src cm eId eCls bId bCls x y w h)).2 = true ∧
    (handleNewData emptyDB (c7mk nm src cm eId eCls bId bCls x y w h)).1.box =
      [[("region-id", Val.str bId), ("image-src", Val.str src),
        ("class", Val.str bCls), ("comment", Val.str ""), ("tags", Val.str ""),
        ("x", Val.list [Val.int x]), ("y", Val.list [Val.int y]),
        ("w", Val.list [Val.int w]), ("h", Val.list [Val.int h])]] ∧
    (handleNewData emptyDB (c7mk nm src cm eId eCls bId bCls x y w h)).1.circle = [] ∧
    (handleNewData emptyDB (c7mk nm src cm eId eCls bId bCls x y w h)).1.polygon = [] ∧
    (∀ row ∈ (handleNewData emptyDB (c7mk nm src cm eId eCls bId bCls x y w h)).1.box,
      lookupF row "region-id" ≠ some (Val.str eId)) := by
  refine ⟨rfl, rfl, rfl, rfl, ?_⟩
  have hbox : (handleNewData emptyDB (c7mk nm src cm eId eCls bId bCls x y w h)).1.box =
      [[("region-id", Val.str bId), ("image-src", Val.str src),
        ("class", Val.str bCls), ("comment", Val.str ""), ("tags", Val.str ""),
        ("x", Val.list [Val.int x]), ("y", Val.list [Val.int y]),
        ("w", Val.list [Val.int w]), ("h", Val.list [Val.int h])]] := rfl
  intro row hrow
  rw [hbox, List.mem_singleton] at hrow
  subst hrow
  show some (Val.str bId) ≠ some (Val.str eId)
  intro hc
  apply hne
  injection hc with hc2
  injection hc2 with hc3
  exact hc3.symm

theorem c7_unknown_type_soft_fail_witness :
    (handleNewData emptyDB (c7mk "n" "s" "c" "e1" "ec" "b1" "bc" 1 2 3 4)).2 = true ∧
    (handleNewData emptyDB (c7mk "n" "s" "c" "e1" "ec" "b1" "bc" 1 2 3 4)).1.box =
      [[("region-id", Val.str "b1"), ("image-src", Val.str "s"),
        ("class", Val.str "bc"), ("comment", Val.str ""), ("tags", Val.str ""),
        ("x", Val.list [Val.int 1]), ("y", Val.list [Val.int 2]),
        ("w", Val.list [Val.int 3]), ("h", Val.list [Val.int 4])]] ∧
    (handleNewData emptyDB (c7mk "n" "s" "c" "e1" "ec" "b1" "bc" 1 2 3 4)).1.circle = [] ∧
    (handleNewData emptyDB (c7mk "n" "s" "c" "e1" "ec" "b1" "bc" 1 2 3 4)).1.polygon = [] ∧
    (∀ row ∈ (handleNewData emptyDB (c7mk "n" "s" "c" "e1" "ec" "b1" "bc" 1 2 3 4)).1.box,
      lookupF row "region-id" ≠ some (Val.str "e1")) :=
  c7_unknown_type_soft_fail "n" "s" "c" "e1" "ec" "b1" "bc" 1 2 3 4 (by decide)

def c4table : Table := [[("region-id", Val.str "K"), ("class", Val.str "cat")]]

def c4record : Record :=
  [("class", Val.str "dog"), ("image-name", Val.list [Val.str "n"]),
   ("image-src", Val.list [Val.str "s"])]

/-- C4 counterexample: with stored class "cat" and incoming class "dog"
(no delimiter anywhere, record carrying `class` and `image-name`), the
update path registers the single CHARACTERS 'd', 'o', 'g' with the
gateway and never registers "dog": the membership strings are converted
with Python `set(string)` — the set of characters — not to the
single-element set the claim states. -/
theorem c4_singleton_refuted :
    ((saveRegionInDB c4table "region-id" (Val.str "K") c4record 1).calls.contains
      (Call.register (Val.str "d") (Val.str "n") (Val.str "s")) = true) ∧
    ((saveRegionInDB c4table "region-id" (Val.str "K") c4record 1).calls.contains
      (Call.register (Val.str "dog") (Val.str "n") (Val.str "s")) = false) := by
  decide

/-- C4 (amended): on the update path (lines 81-99) the old class
membership is read from the stored `selected-classes` column when the
incoming record carries that field and from the stored `class` column
otherwise — but the branch is reachable only for records that also
carry a `class` key, since the eagerly evaluated default of
`data.get('selected-classes', data['class'])` raises `KeyError`
otherwise (conjunct 1).  The split-versus-not decision tests `';'` on
the INCOMING membership string only: with the delimiter present both
strings are split on `';'` (conjunct 3); with it absent — and always in
the class-fallback branch (conjunct 2) — each membership string is
converted to the set of its individual characters, Python
`set(string)`, not to a singleton set (conjuncts 2 and 4). -/
theorem c4_membership_semantics :
    (∀ (db : Table) (col : String) (uid : Val) (data : Record) (status i : Nat),
      findInfoInDb db col uid = some i → lookupF data "class" = none →
      saveRegionInDB db col uid data status = ⟨db, [], false⟩) ∧
    (∀ (row data : Record) (selStr : Val) (so : String) (ns : List Val),
      lookupF data "selected-classes" = none →
      lookupF row "class" = some (Val.str so) →
      pySetElems selStr = some ns →
      ∃ o, computeCatSets row data selStr = some (o, ns) ∧
        (∀ x, x ∈ o ↔ ∃ c ∈ so.toList, x = Val.str (Char.toString c))) ∧
    (∀ (row data : Record) (sv : Val) (s so : String),
      lookupF data "selected-classes" = some sv →
      s.toList.contains ';' = true →
      lookupF row "selected-classes" = some (Val.str so) →
      ∃ o n, computeCatSets row data (Val.str s) = some (o, n) ∧
        (∀ x, x ∈ o ↔ x ∈ (pySplitSemiStr so).map Val.str) ∧
        (∀ x, x ∈ n ↔ x ∈ (pySplitSemiStr s).map Val.str)) ∧
    (∀ (row data : Record) (sv : Val) (s so : String),
      lookupF data "selected-classes" = some sv →
      s.toList.contains ';' = false →
      lookupF row "selected-classes" = some (Val.str so) →
      ∃ o n, computeCatSets row data (Val.str s) = some (o, n) ∧
        (∀ x, x ∈ o ↔ ∃ c ∈ so.toList, x = Val.str (Char.toString c)) ∧
        (∀ x, x ∈ n ↔ ∃ c ∈ s.toList, x = Val.str (Char.toString c))) := by
  refine ⟨?_, ?_, ?_, ?_⟩
  · intro db col uid data status i hf hc
    exact saveRegionInDB_update_noClass db col uid data status i hf hc
  · intro row data selStr so ns hsel hcls hns
    refine ⟨dedupV (charVals so), ?_, ?_⟩
    · have h1 : pySetElems (Val.str so) = some (dedupV (charVals so)) := rfl
      simp [computeCatSets, hsel, hcls, h1, hns]
    · intro x
      rw [mem_dedupV]
      constructor
      · intro hx
        simp only [charVals, List.mem_map] at hx
        obtain ⟨c, hc, hcx⟩ := hx
        exact ⟨c, hc, hcx.symm⟩
      · rintro ⟨c, hc, rfl⟩
        simp only [charVals, List.mem_map]
        exact ⟨c, hc, rfl⟩
  · intro row data sv s so hsel hsemi hrow
    refine ⟨dedupV ((pySplitSemiStr so).map Val.str),
            dedupV ((pySplitSemiStr s).map Val.str), ?_, ?_, ?_⟩
    · have h2 : semicolonIn (Val.str s) = some true := by
        show some (s.toList.contains ';') = some true
        rw [hsemi]
      have h3 : pySplitSemi (Val.str so)
          = some ((pySplitSemiStr so).map Val.str) := rfl
      have h4 : pySplitSemi (Val.str s)
          = some ((pySplitSemiStr s).map Val.str) := rfl
      simp [computeCatSets, hsel, hrow, h2, h3, h4]
    · intro x
      rw [mem_dedupV]
    · intro x
      rw [mem_dedupV]
  · intro row data sv s so hsel hsemi hrow
    refine ⟨dedupV (charVals so), dedupV (charVals s), ?_, ?_, ?_⟩
    · have h2 : semicolonIn (Val.str s) = some false := by
        show some (s.toList.contains ';') = some false
        rw [hsemi]
      have h5 : pySetElems (Val.str so) = some (dedupV (charVals so)) := rfl
      have h6 : pySetElems (Val.str s) = some (dedupV (charVals s)) := rfl
      simp [computeCatSets, hsel, hrow, h2, h5, h6]
    · intro x
      rw [mem_dedupV]
      constructor
      · intro hx
        simp only [charVals, List.mem_map] at hx
        obtain ⟨c, hc, hcx⟩ := hx
        exact ⟨c, hc, hcx.symm⟩
      · rintro ⟨c, hc, rfl⟩
        simp only [charVals, List.mem_map]
        exact ⟨c, hc, rfl⟩
    · intro x
      rw [mem_dedupV]
      constructor
      · intro hx
        simp only [charVals, List.mem_map] at hx
        obtain ⟨c, hc, hcx⟩ := hx
        exact ⟨c, hc, hcx.symm⟩
      · rintro ⟨c, hc, rfl⟩
        simp only [charVals, List.mem_map]
        exact ⟨c, hc, rfl⟩

theorem c4_membership_semantics_witness :
    saveRegionInDB [[("image-src", Val.str "s")]] "image-src" (Val.str "s")
        [("image-name", Val.list [Val.str "n"])] 0
      = ⟨[[("image-src", Val.str "s")]], [], false⟩ ∧
    (∃ o, computeCatSets [("class", Val.str "ab")] [("class", Val.str "x")]
        (Val.str "x") = some (o, [Val.str "x"]) ∧
      (∀ y, y ∈ o ↔ ∃ c ∈ "ab".toList, y = Val.str (Char.toString c))) ∧
    (∃ o n, computeCatSets [("selected-classes", Val.str "A;B")]
        [("selected-classes", Val.str "q")] (Val.str "B;C") = some (o, n) ∧
      (∀ y, y ∈ o ↔ y ∈ (pySplitSemiStr "A;B").map Val.str) ∧
      (∀ y, y ∈ n ↔ y ∈ (pySplitSemiStr "B;C").map Val.str)) ∧
    (∃ o n, computeCatSets [("selected-classes", Val.str "A;B")]
        [("selected-classes", Val.str "q")] (Val.str "C") = some (o, n) ∧
      (∀ y, y ∈ o ↔ ∃ c ∈ "A;B".toList, y = Val.str (Char.toString c)) ∧
      (∀ y, y ∈ n ↔ ∃ c ∈ "C".toList, y = Val.str (Char.toString c))) :=
  ⟨c4_membership_semantics.1 [[("image-src", Val.str "s")]] "image-src"
      (Val.str "s") [("image-name", Val.list [Val.str "n"])] 0 0
      (by decide) (by decide),
   c4_membership_semantics.2.1 [("class", Val.str "ab")]
      [("class", Val.str "x")] (Val.str "x") "ab" [Val.str "x"]
      (by decide) (by decide) (by decide),
   c4_membership_semantics.2.2.1 [("selected-classes", Val.str "A;B")]
      [("selected-classes", Val.str "q")] (Val.str "q") "B;C" "A;B"
      (by decide) (by decide) (by decide),
   c4_membership_semantics.2.2.2 [("selected-classes", Val.str "A;B")]
      [("selected-classes", Val.str "q")] (Val.str "q") "C" "A;B"
      (by decide) (by decide) (by decide)⟩

end AnnotateLab
